import Mathlib

/-
Verification development for the scrape-vm P2P session-establishment
subsystem.

The Go sources embedded here:
  * package p2p, SignalingClient (websocket signaling transport):
    Connect, Close, sendMessage, RegisterApp, sendAuth, readPump,
    handleMessage.
  * package p2p, Client (orchestrator) and its adapters:
    signalingEventAdapter.OnOffer, Client.createPeerConnection,
    Client.Close, Client.Connect.
  * package service, Program.runP2PClient (reconnect loop with
    exponential backoff).

The embedding is a sequential (interleaving-free) model: each Go method
becomes a pure function from an explicit state plus an environment
record (abstracting I/O outcomes: URL parse, dial, socket writes,
peer-connection construction) to a new state, a trace of observable
effects (callback invocations and frames written to the socket), and a
result.  Go panics raised inside dispatched callbacks are modelled
explicitly: the registered handler carries an abstract `panicsOn`
predicate, and every function propagates a `panicked` flag exactly the
way Go's defer/recover does in the corresponding source function.
-/

namespace ScrapeVM

/-! ## Wire vocabulary (message envelope and payload types)

Modelled from the spec: the `messages.go` file of package p2p (the
`MsgType*` constants and the payload struct definitions) is not among
the provided sources; the constant values follow the wire-protocol
table of spec sections 3 and 6, and the payload fields follow both that
table and the field accesses in the provided Go sources
(`payload.UserID`, `payload.Type`, `payload.Error`, `payload.AppID`,
`payload.SDP`, `payload.Candidate`, `payload.Message`). -/

def MsgTypeAuth : String := "auth"

def MsgTypeAuthOK : String := "auth_ok"

def MsgTypeAuthError : String := "auth_error"

def MsgTypeAppRegister : String := "app_register"

def MsgTypeAppRegistered : String := "app_registered"

def MsgTypeOffer : String := "offer"

def MsgTypeAnswer : String := "answer"

def MsgTypeICE : String := "ice"

def MsgTypeError : String := "error"

structure AuthOKPayload where
  userId : String
  accountType : String
  deriving DecidableEq

structure AuthErrorPayload where
  error : String
  deriving DecidableEq

structure AppRegisteredPayload where
  appId : String
  deriving DecidableEq

structure OfferPayload where
  sdp : String
  deriving DecidableEq

structure AnswerPayload where
  sdp : String
  appId : String
  deriving DecidableEq

structure ICEPayload where
  candidate : String
  deriving DecidableEq

structure ErrorPayload where
  message : String
  deriving DecidableEq

/-- The result of attempting `json.Unmarshal` of one received payload
into each of the payload struct types.  Go's unmarshal is a
deterministic function of the raw bytes and the target type; a field
`none` means the unmarshal into that target type returns an error. -/
structure RawPayload where
  asAuthOK : Option AuthOKPayload
  asAuthError : Option AuthErrorPayload
  asAppRegistered : Option AppRegisteredPayload
  asOffer : Option OfferPayload
  asAnswer : Option AnswerPayload
  asICE : Option ICEPayload
  asError : Option ErrorPayload
  deriving DecidableEq

/-- The `WSMessage` JSON envelope: `{type, payload, requestId}`. -/
structure WSMessage where
  type_ : String
  payload : RawPayload
  requestId : String
  deriving DecidableEq

/-- One inbound websocket text frame, as seen by
`SignalingClient.handleMessage`: either bytes on which the envelope
unmarshal fails, or a decoded envelope. -/
inductive Inbound
  | badEnvelope
  | envelope (m : WSMessage)
  deriving DecidableEq

/-! ## Observable effects of the signaling transport -/

/-- Callback invocations on the registered `EventHandler`. -/
inductive Event
  | onAuthenticated (p : AuthOKPayload)
  | onAuthError (p : AuthErrorPayload)
  | onAppRegistered (p : AppRegisteredPayload)
  | onOffer (sdp : String) (requestId : String)
  | onAnswer (sdp : String) (appId : String)
  | onICE (candidate : String)
  | onError (message : String)
  | onConnected
  | onDisconnected
  deriving DecidableEq

/-- Outbound frames written to the websocket by `sendMessage` callers. -/
inductive Sent
  | auth (apiKey : String)
  | appRegister (name : String) (capabilities : List String)
  | answer (sdp : String) (requestId : String)
  | ice (candidate : String)
  deriving DecidableEq

/-- One entry of the observable effect trace: a callback invocation or
a frame written to the socket. -/
inductive Out
  | ev (e : Event)
  | tx (s : Sent)
  deriving DecidableEq

/-! ## SignalingClient state -/

/-- Abstraction of one live `*websocket.Conn`: the environment decides
whether `WriteMessage` calls on it succeed and whether `conn.Close()`
returns an error. -/
structure Conn where
  writeOk : Bool
  closeErr : Bool
  deriving DecidableEq

/-- `SignalingConfig`: the configuration of a `SignalingClient`.  The
registered handler is abstracted by its presence (`hasHandler`, the Go
`Handler != nil` test) and by which callback invocations raise a Go
panic (`panicsOn`). -/
structure SignalingConfig where
  serverURL : String
  apiKey : String
  appName : String
  capabilities : List String
  hasHandler : Bool
  panicsOn : Event → Bool

/-- The mutable state of a `SignalingClient` (fields guarded by `c.mu`
in Go, read here under the sequential model). -/
structure SignalingClient where
  config : SignalingConfig
  conn : Option Conn
  isConnected : Bool
  isAuthenticated : Bool
  appID : String
  hasCtx : Bool
  ctxCancelled : Bool

namespace SignalingClient

/-- Dispatch one callback on the registered handler: mirrors the Go
pattern `if c.config.Handler != nil { c.config.Handler.OnX(...) }`.
Returns the trace entries of the invocation and whether the callback
panicked. -/
def dispatch (cfg : SignalingConfig) (e : Event) : List Out × Bool :=
  if cfg.hasHandler then ([Out.ev e], cfg.panicsOn e) else ([], false)

inductive SendErr
  | notConnected
  | writeFailed
  deriving DecidableEq

/-- `SignalingClient.sendMessage`: returns "not connected" when the
connection handle is nil, otherwise marshals (marshalling of these
string-field payloads cannot fail) and calls `WriteMessage`, whose
error it returns.  The `tx` trace entry records the `WriteMessage`
call. -/
def sendMessage (c : SignalingClient) (m : Sent) : Option SendErr × List Out :=
  match c.conn with
  | none => (some SendErr.notConnected, [])
  | some conn => ((if conn.writeOk then none else some SendErr.writeFailed), [Out.tx m])

/-- `SignalingClient.sendAuth`: sends the `auth` envelope carrying the
configured API key. -/
def sendAuth (c : SignalingClient) : Option SendErr × List Out :=
  sendMessage c (Sent.auth c.config.apiKey)

/-- `SignalingClient.RegisterApp`: sends the `app_register` envelope
carrying the configured app name and capability list. -/
def RegisterApp (c : SignalingClient) : Option SendErr × List Out :=
  sendMessage c (Sent.appRegister c.config.appName c.config.capabilities)

/-- Fixed model string for the `OnError` message produced on an
envelope unmarshal failure (`"invalid message format: %v"`). -/
def invalidFormatMsg : String := "invalid message format"

/-- Result of `handleMessage`: new state, effect trace, and whether a
panic raised by a dispatched callback is propagating out of the call. -/
structure HRes where
  st : SignalingClient
  out : List Out
  panicked : Bool

/-- `SignalingClient.handleMessage`: unmarshal the envelope (on failure
fire `OnError` and return), then switch on `msg.Type`; in each case the
payload unmarshal result gates the action (`if err == nil { ... }`,
silently skipping otherwise).  On `auth_ok`: set `isAuthenticated`,
fire `OnAuthenticated`, then auto-call `RegisterApp` (its error is
discarded). -/
def handleMessage (c : SignalingClient) (data : Inbound) : HRes :=
  match data with
  | Inbound.badEnvelope =>
      let d := dispatch c.config (Event.onError invalidFormatMsg)
      { st := c, out := d.1, panicked := d.2 }
  | Inbound.envelope m =>
      if m.type_ = MsgTypeAuthOK then
        match m.payload.asAuthOK with
        | some p =>
            let c1 := { c with isAuthenticated := true }
            let d := dispatch c.config (Event.onAuthenticated p)
            if d.2 then { st := c1, out := d.1, panicked := true }
            else
              let r := RegisterApp c1
              { st := c1, out := d.1 ++ r.2, panicked := false }
        | none => { st := c, out := [], panicked := false }
      else if m.type_ = MsgTypeAuthError then
        match m.payload.asAuthError with
        | some p =>
            let d := dispatch c.config (Event.onAuthError p)
            { st := c, out := d.1, panicked := d.2 }
        | none => { st := c, out := [], panicked := false }
      else if m.type_ = MsgTypeAppRegistered then
        match m.payload.asAppRegistered with
        | some p =>
            let c1 := { c with appID := p.appId }
            let d := dispatch c.config (Event.onAppRegistered p)
            { st := c1, out := d.1, panicked := d.2 }
        | none => { st := c, out := [], panicked := false }
      else if m.type_ = MsgTypeOffer then
        match m.payload.asOffer with
        | some p =>
            let d := dispatch c.config (Event.onOffer p.sdp m.requestId)
            { st := c, out := d.1, panicked := d.2 }
        | none => { st := c, out := [], panicked := false }
      else if m.type_ = MsgTypeAnswer then
        match m.payload.asAnswer with
        | some p =>
            let d := dispatch c.config (Event.onAnswer p.sdp p.appId)
            { st := c, out := d.1, panicked := d.2 }
        | none => { st := c, out := [], panicked := false }
      else if m.type_ = MsgTypeICE then
        match m.payload.asICE with
        | some p =>
            let d := dispatch c.config (Event.onICE p.candidate)
            { st := c, out := d.1, panicked := d.2 }
        | none => { st := c, out := [], panicked := false }
      else if m.type_ = MsgTypeError then
        match m.payload.asError with
        | some p =>
            let d := dispatch c.config (Event.onError p.message)
            { st := c, out := d.1, panicked := d.2 }
        | none => { st := c, out := [], panicked := false }
      else { st := c, out := [], panicked := false }

end SignalingClient

/-! ## The read loop (`SignalingClient.readPump`) -/

/-- One blocking `conn.ReadMessage()` outcome delivered by the
environment: a successfully read text frame, or a read error
(`unexpectedClose` records whether `websocket.IsUnexpectedCloseError`
holds for it, which gates the `OnError` dispatch). -/
inductive ReadResult
  | frame (data : Inbound)
  | readErr (unexpectedClose : Bool)
  deriving DecidableEq

/-- How a (finite prefix of a) read-pump run ends: still blocked on the
next read, returned normally (the deferred cleanup ran), or an
unrecovered panic escaped the goroutine — which in Go crashes the whole
process, since `readPump` runs as `go c.readPump()` and neither it nor
its deferred function calls `recover`. -/
inductive PumpOutcome
  | running
  | exited
  | crashed
  deriving DecidableEq

structure PumpRes where
  st : ScrapeVM.SignalingClient
  out : List Out
  outcome : PumpOutcome

namespace SignalingClient

/-- The deferred function of `readPump`: flip `isConnected` and
`isAuthenticated` to false, then fire `OnDisconnected`.  It contains no
`recover`, so if it runs while a panic is propagating (or if the
`OnDisconnected` callback itself panics) the goroutine dies and the
process crashes. -/
def pumpFinish (c : SignalingClient) (acc : List Out) (panicking : Bool) : PumpRes :=
  let c1 := { c with isConnected := false, isAuthenticated := false }
  let d := dispatch c.config Event.onDisconnected
  { st := c1, out := acc ++ d.1,
    outcome := if panicking || d.2 then PumpOutcome.crashed else PumpOutcome.exited }

/-- `SignalingClient.readPump`, run against a finite prefix of read
outcomes.  Each iteration: return if the context is cancelled or the
connection handle is nil (these per-iteration guards are repeated in
each equation); otherwise block on the next read.  A read error fires
`OnError` when it is an unexpected close, then returns (running the
deferred cleanup).  A read frame is dispatched synchronously through
`handleMessage`; a panic escaping that dispatch still runs the deferred
cleanup and then kills the goroutine. -/
def readPump (c : SignalingClient) : List ReadResult → PumpRes
  | [] =>
    if c.ctxCancelled then pumpFinish c [] false
    else
      match c.conn with
      | none => pumpFinish c [] false
      | some _ => { st := c, out := [], outcome := PumpOutcome.running }
  | ReadResult.readErr unexpected :: _ =>
    if c.ctxCancelled then pumpFinish c [] false
    else
      match c.conn with
      | none => pumpFinish c [] false
      | some _ =>
        let d := if unexpected then dispatch c.config (Event.onError "websocket error")
                 else ([], false)
        pumpFinish c d.1 d.2
  | ReadResult.frame data :: rest =>
    if c.ctxCancelled then pumpFinish c [] false
    else
      match c.conn with
      | none => pumpFinish c [] false
      | some _ =>
        let h := handleMessage c data
        if h.panicked then pumpFinish h.st h.out true
        else
          let r := readPump h.st rest
          { st := r.st, out := h.out ++ r.out, outcome := r.outcome }

/-! ## `SignalingClient.Connect` and `SignalingClient.Close` -/

/-- Environment of one `Connect` call: whether `url.Parse` of the
configured server URL succeeds, whether the websocket dial succeeds,
and the connection handle a successful dial produces. -/
structure ConnectEnv where
  urlParseOk : Bool
  dialOk : Bool
  newConn : Conn
  deriving DecidableEq

inductive ConnErr
  | invalidURL
  | dialFailed
  | authFailed
  | panicked
  deriving DecidableEq

structure CRes where
  st : ScrapeVM.SignalingClient
  out : List Out
  err : Option ConnErr

/-- Releases of underlying resources: used to state that `Close` never
double-releases. -/
inductive Rel
  | connClosed
  | peerClosed
  deriving DecidableEq

structure CloseRes where
  st : ScrapeVM.SignalingClient
  released : List Rel
  err : Bool

/-- `SignalingClient.Close`: if not connected, return nil immediately;
otherwise flip `isConnected`/`isAuthenticated`, cancel the context if
one exists, and if the connection handle is non-nil write a
normal-closure frame (error ignored, performed on the connection being
released), call `conn.Close()` (its error is returned) and drop the
handle. -/
def Close (c : SignalingClient) : CloseRes :=
  if ¬ c.isConnected then { st := c, released := [], err := false }
  else
    let c0 := { c with isConnected := false, isAuthenticated := false }
    let c1 := { c0 with ctxCancelled := c.hasCtx || c.ctxCancelled }
    match c.conn with
    | some conn =>
        { st := { c1 with conn := none }, released := [Rel.connClosed],
          err := conn.closeErr }
    | none => { st := c1, released := [], err := false }

/-- `SignalingClient.Connect`: no-op returning nil when already
connected; otherwise create a fresh cancellable context, parse the URL
(append the API key as a query parameter), dial the websocket, record
the live connection, fire `OnConnected`, start the read and ping pumps
(they run separately and contribute nothing to this call's trace), and
send the `auth` envelope — calling `Close` and failing if that send
fails.  The whole body runs under `defer recover`, so a panic raised in
a dispatched callback is converted into an error return. -/
def Connect (c : SignalingClient) (env : ConnectEnv) : CRes :=
  if c.isConnected then { st := c, out := [], err := none }
  else
    let c1 := { c with hasCtx := true, ctxCancelled := false }
    if ¬ env.urlParseOk then { st := c1, out := [], err := some ConnErr.invalidURL }
    else if ¬ env.dialOk then { st := c1, out := [], err := some ConnErr.dialFailed }
    else
      let c2 := { c1 with conn := some env.newConn, isConnected := true }
      let d := dispatch c2.config Event.onConnected
      if d.2 then { st := c2, out := d.1, err := some ConnErr.panicked }
      else
        let a := sendAuth c2
        match a.1 with
        | some _ =>
            let cl := Close c2
            { st := cl.st, out := d.1 ++ a.2, err := some ConnErr.authFailed }
        | none => { st := c2, out := d.1 ++ a.2, err := none }

end SignalingClient

/-! ## The orchestrator (`p2p.Client`) and its adapters -/

/-- `webrtc.PeerConnectionState` of the underlying negotiation object. -/
inductive PCState
  | new
  | connecting
  | connected
  | disconnected
  | failed
  | closed
  deriving DecidableEq

/-- Abstraction of one `*PeerConnection` object at the interface the
orchestrator uses (the `peer.go` internals are opaque here): an
identity distinguishing session objects, the connection state it
reports, and the environment-decided outcomes of `HandleOffer` and
`Close` on it. -/
structure Peer where
  id : Nat
  connState : PCState
  handleOfferOk : Bool
  closeErr : Bool
  deriving DecidableEq

/-- Observable effects of the orchestrator paths: closing / creating a
peer session, invoking `HandleOffer` on a session (identified by its
id), and firing `OnP2PError` on the application handler. -/
inductive POut
  | closePeer (id : Nat)
  | createPeer (id : Nat)
  | handleOffer (id : Nat) (sdp : String) (requestId : String)
  | p2pError (msg : String)
  deriving DecidableEq

/-- The mutable state of a `p2p.Client` relevant to the embedded
methods. -/
structure Client where
  hasHandler : Bool
  peer : Option Peer
  signaling : Option ScrapeVM.SignalingClient
  connected : Bool
  registered : Bool
  hasCtx : Bool
  ctxCancelled : Bool

/-- Environment of one `NewPeerConnection` call: whether construction
succeeds and, if so, the fresh session object produced. -/
structure PeerEnv where
  createOk : Bool
  fresh : Peer
  deriving DecidableEq

namespace Client

/-- `Client.createPeerConnection`: default the ICE server list, call
`NewPeerConnection`; on error log it and fire `OnP2PError`, leaving
`c.peer` unchanged; on success store the fresh session in `c.peer`. -/
def createPeerConnection (c : Client) (env : PeerEnv) : Client × List POut :=
  if env.createOk then
    ({ c with peer := some env.fresh }, [POut.createPeer env.fresh.id])
  else
    (c, if c.hasHandler then [POut.p2pError "failed to create peer connection"] else [])

/-- Result of `Client.Close`. -/
structure CCloseRes where
  st : Client
  released : List ScrapeVM.SignalingClient.Rel
  err : Bool

/-- `Client.Close`: cancel the internal context if present; close and
drop the peer session, then close and drop the signaling client
(collecting their errors, first one returned); clear the
connected/registered flags.  The source nils each field only inside its
`!= nil` guard; setting it to `none` unconditionally is equivalent. -/
def Close (c : Client) : CCloseRes :=
  let c1 := if c.hasCtx then { c with ctxCancelled := true } else c
  let peerRel : List ScrapeVM.SignalingClient.Rel :=
    match c1.peer with
    | some _ => [ScrapeVM.SignalingClient.Rel.peerClosed]
    | none => []
  let peerErr : Bool :=
    match c1.peer with
    | some p => p.closeErr
    | none => false
  let sigRes : Option ScrapeVM.SignalingClient.CloseRes :=
    match c1.signaling with
    | some s => some (ScrapeVM.SignalingClient.Close s)
    | none => none
  let sigRel : List ScrapeVM.SignalingClient.Rel :=
    match sigRes with
    | some r => r.released
    | none => []
  let sigErr : Bool :=
    match sigRes with
    | some r => r.err
    | none => false
  let c2 := { c1 with peer := none, signaling := none, connected := false, registered := false }
  { st := c2, released := peerRel ++ sigRel, err := peerErr || sigErr }

end Client

namespace signalingEventAdapter

/-- `signalingEventAdapter.OnOffer`: read the current peer session; if
none exists or its connection state is `Closed` or `Failed`, close the
old one (when present) and call `createPeerConnection`; then re-read
the session — if still nil, log and return; otherwise call
`HandleOffer` on it, firing `OnP2PError` if that fails. -/
def OnOffer (c : ScrapeVM.Client) (env : PeerEnv) (sdp requestId : String) :
    ScrapeVM.Client × List POut :=
  let peer0 := c.peer
  let stale : Bool :=
    match peer0 with
    | none => true
    | some q => (q.connState == PCState.closed) || (q.connState == PCState.failed)
  let step1 : ScrapeVM.Client × List POut :=
    if stale then
      let outClose : List POut :=
        match peer0 with
        | some q => [POut.closePeer q.id]
        | none => []
      let cr := ScrapeVM.Client.createPeerConnection c env
      (cr.1, outClose ++ cr.2)
    else (c, [])
  match step1.1.peer with
  | none => (step1.1, step1.2)
  | some q =>
      let offOut := [POut.handleOffer q.id sdp requestId]
      let errOut : List POut :=
        if q.handleOfferOk then []
        else if step1.1.hasHandler then [POut.p2pError "failed to handle offer"] else []
      (step1.1, step1.2 ++ offOut ++ errOut)

end signalingEventAdapter

/-! ## The service reconnect loop (`Program.runP2PClient`) -/

namespace Program

/-- Environment outcome of one iteration of the retry loop: the select
over the connect goroutine's result / a 30s timeout / context
cancellation, followed (on failure) by the backoff select.
`connOk n` is a successful connect after which `n` post-connect
disconnection events are delivered to the `serviceP2PEventHandler`
(whose `OnP2PDisconnected` only logs); the loop itself then blocks on
`<-p.ctx.Done()`.  `connFailRetry` is a failed or timed-out connect
whose backoff wait elapses; `connFailCancelled` is a failed connect
with cancellation arriving during the backoff wait;
`cancelledDuringConnect` is cancellation during the connect select. -/
inductive StepEnv
  | connOk (disconnectsWhileIdle : Nat)
  | connFailRetry
  | connFailCancelled
  | cancelledDuringConnect
  deriving DecidableEq

/-- How the loop run ends on a finite environment trace: still at the
top of the loop, blocked forever on `<-p.ctx.Done()` after a successful
connect, or returned because the cancellation signal fired. -/
inductive LoopExit
  | stillRunning
  | idleUntilCancel
  | exitCancelled
  deriving DecidableEq

structure LoopRes where
  waits : List Nat
  attempts : Nat
  exit : LoopExit
  deriving DecidableEq

/-- The backoff update after a full wait: `retryDelay = retryDelay * 2;
if retryDelay > maxRetryDelay { retryDelay = maxRetryDelay }`, with
`maxRetryDelay = 60` seconds. -/
def bumpDelay (d : Nat) : Nat :=
  let d2 := d * 2
  if d2 > 60 then 60 else d2

/-- The retry loop of `Program.runP2PClient`, starting from the current
`retryDelay` (in seconds; initialised to 5 by the caller), run against
a finite environment trace.  Each consumed step is one connect attempt.
On failure with an elapsed backoff the wait is recorded, the delay is
bumped, a fresh `p2p.Client` is constructed, and the loop continues.
After a successful connect the loop logs the appID and blocks on
`<-p.ctx.Done()`: post-connect disconnections never re-enter the loop. -/
def runLoop (d : Nat) : List StepEnv → LoopRes
  | [] => { waits := [], attempts := 0, exit := LoopExit.stillRunning }
  | StepEnv.connOk _ :: _ =>
      { waits := [], attempts := 1, exit := LoopExit.idleUntilCancel }
  | StepEnv.connFailRetry :: rest =>
      let r := runLoop (bumpDelay d) rest
      { waits := d :: r.waits, attempts := r.attempts + 1, exit := r.exit }
  | StepEnv.connFailCancelled :: _ =>
      { waits := [], attempts := 1, exit := LoopExit.exitCancelled }
  | StepEnv.cancelledDuringConnect :: _ =>
      { waits := [], attempts := 1, exit := LoopExit.exitCancelled }

/-- A step at which the external cancellation signal fires. -/
def isCancelStep : StepEnv → Bool
  | StepEnv.connFailCancelled => true
  | StepEnv.cancelledDuringConnect => true
  | _ => false

/-- The delay value after `n` backoff bumps starting from `d`. -/
def bumpIter : Nat → Nat → Nat
  | 0, d => d
  | n + 1, d => bumpIter n (bumpDelay d)

end Program

/-! ## Lemmas about the reconnect loop -/

lemma bumpDelay_eq_min (d : Nat) : Program.bumpDelay d = min (d * 2) 60 := by
  show (if d * 2 > 60 then 60 else d * 2) = min (d * 2) 60
  split <;> omega

lemma bumpDelay_le (d : Nat) (h : d ≤ 60) : Program.bumpDelay d ≤ 60 := by
  rw [bumpDelay_eq_min]; omega

lemma runLoop_replicate_fail_waits (n : Nat) :
    ∀ d, d ≤ 60 →
      (Program.runLoop d (List.replicate n Program.StepEnv.connFailRetry)).waits
        = (List.range n).map (fun k => min (d * 2 ^ k) 60) := by
  induction n with
  | zero => intro d _; simp [Program.runLoop]
  | succ n ih =>
      intro d hd
      rw [List.replicate_succ, List.range_succ_eq_map]
      show (Program.runLoop d (Program.StepEnv.connFailRetry ::
        List.replicate n Program.StepEnv.connFailRetry)).waits = _
      simp only [Program.runLoop, ih (Program.bumpDelay d) (bumpDelay_le d hd),
        List.map_cons, List.map_map]
      rw [List.cons_eq_cons]
      constructor
      · simp; omega
      · apply List.map_congr_left
        intro k _
        simp only [Function.comp_apply, bumpDelay_eq_min]
        have h1 : 1 ≤ 2 ^ k := Nat.one_le_two_pow
        have h2 : d * 2 ^ (k + 1) = d * 2 * 2 ^ k := by ring
        rw [h2]
        rcases le_or_lt (d * 2) 60 with hc | hc
        · rw [min_eq_left hc]
        · rw [min_eq_right (le_of_lt hc)]
          have h3 : 60 < d * 2 * 2 ^ k :=
            lt_of_lt_of_le hc (Nat.le_mul_of_pos_right _ (by omega))
          have h4 : 60 ≤ 60 * 2 ^ k := Nat.le_mul_of_pos_right _ (by omega)
          omega

lemma runLoop_replicate_fail_run (n : Nat) :
    ∀ d,
      (Program.runLoop d (List.replicate n Program.StepEnv.connFailRetry)).exit
          = Program.LoopExit.stillRunning
      ∧ (Program.runLoop d (List.replicate n Program.StepEnv.connFailRetry)).attempts = n := by
  induction n with
  | zero => intro d; simp [Program.runLoop]
  | succ n ih =>
      intro d
      rw [List.replicate_succ]
      show (Program.runLoop d (Program.StepEnv.connFailRetry :: _)).exit = _ ∧ _
      simp only [Program.runLoop]
      exact ⟨(ih _).1, by rw [(ih _).2]⟩

lemma runLoop_replicate_fail_append (l : List Program.StepEnv) (n : Nat) :
    ∀ d,
      (Program.runLoop d (List.replicate n Program.StepEnv.connFailRetry ++ l)).attempts
          = n + (Program.runLoop (Program.bumpIter n d) l).attempts
      ∧ (Program.runLoop d (List.replicate n Program.StepEnv.connFailRetry ++ l)).exit
          = (Program.runLoop (Program.bumpIter n d) l).exit := by
  induction n with
  | zero => intro d; simp [Program.bumpIter]
  | succ n ih =>
      intro d
      rw [List.replicate_succ, List.cons_append]
      simp only [Program.runLoop, Program.bumpIter]
      refine ⟨?_, (ih _).2⟩
      rw [(ih _).1]
      omega

lemma runLoop_no_cancel (t : List Program.StepEnv) :
    ∀ d, t.any Program.isCancelStep = false →
      (Program.runLoop d t).exit ≠ Program.LoopExit.exitCancelled := by
  induction t with
  | nil => intro d _; simp [Program.runLoop]
  | cons s rest ih =>
      intro d ht
      rw [List.any_cons] at ht
      cases s with
      | connOk m => simp [Program.runLoop]
      | connFailRetry =>
          simp only [Program.runLoop]
          exact ih _ (by simpa [Program.isCancelStep] using ht)
      | connFailCancelled => simp [Program.isCancelStep] at ht
      | cancelledDuringConnect => simp [Program.isCancelStep] at ht

/-! ## Claim theorems: the reconnect loop -/

/-- C3: in the reconnect loop, for every run of `n` consecutive connect
failures with no intervening success or cancellation, the wait before
the `N`-th retry (for `1 ≤ N ≤ n`) equals `min(5s * 2^(N-1), 60s)`; the
full wait sequence is `[min(5 * 2^k, 60) | k < n]`, so the first wait
is 5 seconds, each subsequent wait doubles, and no wait exceeds 60
seconds. -/
theorem c3_backoff_wait_formula (n N : Nat) (h1 : 1 ≤ N) (h2 : N ≤ n) :
    ((Program.runLoop 5 (List.replicate n Program.StepEnv.connFailRetry)).waits).getD (N - 1) 0
        = min (5 * 2 ^ (N - 1)) 60
    ∧ (Program.runLoop 5 (List.replicate n Program.StepEnv.connFailRetry)).waits
        = (List.range n).map (fun k => min (5 * 2 ^ k) 60) := by
  have hw := runLoop_replicate_fail_waits n 5 (by omega)
  refine ⟨?_, hw⟩
  rw [hw]
  have hlen : N - 1 < ((List.range n).map (fun k => min (5 * 2 ^ k) 60)).length := by
    simp; omega
  rw [List.getD_eq_getElem _ _ hlen]
  simp

theorem c3_backoff_wait_formula_witness :
    (1 ≤ 5 ∧ 5 ≤ 6)
    ∧ ((Program.runLoop 5 (List.replicate 6 Program.StepEnv.connFailRetry)).waits).getD (5 - 1) 0
        = min (5 * 2 ^ (5 - 1)) 60 :=
  ⟨⟨by decide, by decide⟩, (c3_backoff_wait_formula 6 5 (by decide) (by decide)).1⟩

/-- C4 counterexample: in an execution where the connect attempt
succeeds and one post-connect disconnection is then delivered, the loop
makes no further connect attempt (total attempts stay 1, refuting the
claimed retry) and simply blocks until cancellation. -/
theorem c4_counterexample :
    (Program.runLoop 5 [Program.StepEnv.connOk 1]).attempts = 1
    ∧ (Program.runLoop 5 [Program.StepEnv.connOk 1]).exit = Program.LoopExit.idleUntilCancel
    ∧ ¬ 2 ≤ (Program.runLoop 5 [Program.StepEnv.connOk 1]).attempts := by
  decide

/-- C4 (amended): the reconnect loop retries (after its backoff wait)
on every connect failure and never terminates of its own accord — on a
cancellation-free environment it never exits with `exitCancelled`, on
`n` consecutive failures it performs all `n` attempts and keeps
running — but a post-connect disconnection does not trigger a retry:
after a successful connect the loop performs no further attempts and
blocks until cancellation. -/
theorem c4_failure_retries_and_cancellation_only_exit (n m : Nat)
    (t : List Program.StepEnv) (ht : t.any Program.isCancelStep = false) :
    (Program.runLoop 5 (List.replicate n Program.StepEnv.connFailRetry)).exit
        = Program.LoopExit.stillRunning
    ∧ (Program.runLoop 5 (List.replicate n Program.StepEnv.connFailRetry)).attempts = n
    ∧ (Program.runLoop 5 (List.replicate n Program.StepEnv.connFailRetry
        ++ [Program.StepEnv.connOk m])).attempts = n + 1
    ∧ (Program.runLoop 5 (List.replicate n Program.StepEnv.connFailRetry
        ++ [Program.StepEnv.connOk m])).exit = Program.LoopExit.idleUntilCancel
    ∧ (Program.runLoop 5 t).exit ≠ Program.LoopExit.exitCancelled := by
  obtain ⟨he, ha⟩ := runLoop_replicate_fail_run n 5
  obtain ⟨ha2, he2⟩ := runLoop_replicate_fail_append [Program.StepEnv.connOk m] n 5
  refine ⟨he, ha, ?_, ?_, runLoop_no_cancel t 5 ht⟩
  · rw [ha2]; simp [Program.runLoop]
  · rw [he2]; simp [Program.runLoop]

theorem c4_failure_retries_and_cancellation_only_exit_witness :
    ([Program.StepEnv.connFailRetry, Program.StepEnv.connOk 2].any Program.isCancelStep = false)
    ∧ (Program.runLoop 5 (List.replicate 1 Program.StepEnv.connFailRetry)).attempts = 1
    ∧ (Program.runLoop 5 [Program.StepEnv.connFailRetry,
        Program.StepEnv.connOk 2]).exit ≠ Program.LoopExit.exitCancelled :=
  ⟨by decide,
   (c4_failure_retries_and_cancellation_only_exit 1 2
      [Program.StepEnv.connFailRetry, Program.StepEnv.connOk 2] (by decide)).2.1,
   (c4_failure_retries_and_cancellation_only_exit 1 2
      [Program.StepEnv.connFailRetry, Program.StepEnv.connOk 2] (by decide)).2.2.2.2⟩

/-! ## Lemmas about Close -/

lemma sigClose_not_connected (s : SignalingClient) (h : s.isConnected = false) :
    SignalingClient.Close s = { st := s, released := [], err := false } := by
  simp [SignalingClient.Close, h]

lemma sigClose_st_not_connected (s : SignalingClient) :
    (SignalingClient.Close s).st.isConnected = false := by
  by_cases h : s.isConnected = true
  · simp only [SignalingClient.Close, h]
    cases hc : s.conn <;> simp [hc]
  · have h' : s.isConnected = false := by simpa using h
    rw [sigClose_not_connected s h', h']

lemma sigClose_released_cases (s : SignalingClient) :
    (SignalingClient.Close s).released = []
    ∨ (SignalingClient.Close s).released = [SignalingClient.Rel.connClosed] := by
  by_cases h : s.isConnected = true
  · simp only [SignalingClient.Close, h]
    cases hc : s.conn <;> simp [hc]
  · have h' : s.isConnected = false := by simpa using h
    rw [sigClose_not_connected s h']
    exact Or.inl rfl

lemma clientClose_st_fields (c : Client) :
    (Client.Close c).st.peer = none ∧ (Client.Close c).st.signaling = none := by
  simp [Client.Close]

lemma clientClose_trivial (c : Client) (hp : c.peer = none) (hs : c.signaling = none) :
    (Client.Close c).released = [] ∧ (Client.Close c).err = false := by
  by_cases hx : c.hasCtx = true
  · simp [Client.Close, hx, hp, hs]
  · have hx' : c.hasCtx = false := by simpa using hx
    simp [Client.Close, hx', hp, hs]

lemma clientClose_released (c : Client) :
    (Client.Close c).released
      = (match c.peer with
          | some _ => [SignalingClient.Rel.peerClosed]
          | none => ([] : List SignalingClient.Rel))
        ++ (match c.signaling with
            | some s0 => (SignalingClient.Close s0).released
            | none => []) := by
  by_cases hx : c.hasCtx = true
  · simp only [Client.Close, hx, if_true]
    cases c.signaling <;> simp
  · have hx' : c.hasCtx = false := by simpa using hx
    simp only [Client.Close, hx', Bool.false_eq_true, if_false]
    cases c.signaling <;> simp

lemma count_le_one_pair (rel : SignalingClient.Rel)
    (l1 l2 : List SignalingClient.Rel)
    (h1 : l1 = [] ∨ l1 = [SignalingClient.Rel.peerClosed])
    (h2 : l2 = [] ∨ l2 = [SignalingClient.Rel.connClosed]) :
    (l1 ++ l2).count rel ≤ 1 := by
  rcases h1 with h1 | h1 <;> rcases h2 with h2 | h2 <;> subst h1 <;> subst h2 <;>
    cases rel <;> decide

/-! ## Claim theorems: Close idempotence, Connect absorption -/

/-- C8: Close is idempotent on both the signaling transport and the
integrated P2P client: for every state (connected, never-connected or
already closed), the second of two consecutive `Close` calls returns
without error and releases nothing, and across both calls each
underlying resource (the websocket connection handle, the peer
session) is released at most once. -/
theorem c8_close_idempotent (s : SignalingClient) (c : Client) :
    ((SignalingClient.Close (SignalingClient.Close s).st).err = false
      ∧ (SignalingClient.Close (SignalingClient.Close s).st).released = []
      ∧ ∀ rel, ((SignalingClient.Close s).released
          ++ (SignalingClient.Close (SignalingClient.Close s).st).released).count rel ≤ 1)
    ∧ ((Client.Close (Client.Close c).st).err = false
      ∧ (Client.Close (Client.Close c).st).released = []
      ∧ ∀ rel, ((Client.Close c).released
          ++ (Client.Close (Client.Close c).st).released).count rel ≤ 1) := by
  have h2 := sigClose_not_connected (SignalingClient.Close s).st (sigClose_st_not_connected s)
  have hc1 := clientClose_st_fields c
  have hc2 := clientClose_trivial (Client.Close c).st hc1.1 hc1.2
  refine ⟨⟨by rw [h2], by rw [h2], ?_⟩, ⟨hc2.2, hc2.1, ?_⟩⟩
  · intro rel
    rw [h2]
    simp only [List.append_nil]
    rcases sigClose_released_cases s with h | h <;> rw [h] <;> cases rel <;> decide
  · intro rel
    rw [hc2.1]
    simp only [List.append_nil]
    rw [clientClose_released c]
    apply count_le_one_pair
    · cases c.peer <;> simp
    · cases hs : c.signaling
      · simp
      · simpa using sigClose_released_cases _

/-- C10: calling `SignalingClient.Connect` on an instance whose
`isConnected` flag is already true is a no-op returning nil: no URL
parse, no dial, no auth envelope, no callback, and no state change. -/
theorem c10_connect_absorbed (c : SignalingClient) (env : SignalingClient.ConnectEnv)
    (h : c.isConnected = true) :
    SignalingClient.Connect c env = { st := c, out := [], err := none } := by
  simp [SignalingClient.Connect, h]

/-- A concrete signaling configuration used by witnesses (the service
configures name `etc-scraper` with capabilities `scrape`, `etc`; the
handler panics on no event). -/
def witnessConfig : SignalingConfig :=
  { serverURL := "wss://relay.example/ws/app", apiKey := "k1", appName := "etc-scraper",
    capabilities := ["scrape", "etc"], hasHandler := true, panicsOn := fun _ => false }

/-- A concrete connected signaling client used by witnesses. -/
def witnessConnected : SignalingClient :=
  { config := witnessConfig, conn := some { writeOk := true, closeErr := false },
    isConnected := true, isAuthenticated := false, appID := "",
    hasCtx := true, ctxCancelled := false }

/-! ## Lemmas about handleMessage and readPump -/

lemma dispatch_snd_false (cfg : SignalingConfig) (e : Event)
    (hnp : cfg.panicsOn e = false) : (SignalingClient.dispatch cfg e).2 = false := by
  unfold SignalingClient.dispatch
  split <;> simp [hnp]

lemma dispatch_count_disc (cfg : SignalingConfig) (e : Event)
    (he : e ≠ Event.onDisconnected) :
    (SignalingClient.dispatch cfg e).1.count (Out.ev Event.onDisconnected) = 0 := by
  unfold SignalingClient.dispatch
  split <;> simp [List.count_cons, he, Ne.symm he]

lemma sendMessage_count_disc (c : SignalingClient) (m : Sent) :
    (SignalingClient.sendMessage c m).2.count (Out.ev Event.onDisconnected) = 0 := by
  unfold SignalingClient.sendMessage
  cases c.conn <;> simp

lemma handleMessage_facts (c : SignalingClient) (d : Inbound)
    (hnp : ∀ e, c.config.panicsOn e = false) :
    (SignalingClient.handleMessage c d).st.conn = c.conn
    ∧ (SignalingClient.handleMessage c d).st.ctxCancelled = c.ctxCancelled
    ∧ (SignalingClient.handleMessage c d).st.config = c.config
    ∧ (SignalingClient.handleMessage c d).panicked = false
    ∧ (SignalingClient.handleMessage c d).out.count (Out.ev Event.onDisconnected) = 0 := by
  cases d with
  | badEnvelope =>
      simp only [SignalingClient.handleMessage]
      refine ⟨?_, ?_, ?_, ?_, ?_⟩
      all_goals first
        | trivial
        | exact dispatch_snd_false _ _ (hnp _)
        | exact dispatch_count_disc _ _ (by simp)
  | envelope m =>
      simp only [SignalingClient.handleMessage, SignalingClient.RegisterApp]
      repeat' split
      all_goals try (rename_i h; simp [dispatch_snd_false _ _ (hnp _)] at h)
      all_goals refine ⟨?_, ?_, ?_, ?_, ?_⟩
      all_goals first
        | trivial
        | rfl
        | exact dispatch_snd_false _ _ (hnp _)
        | exact dispatch_count_disc _ _ (by simp)
        | rw [List.count_append, dispatch_count_disc _ _ (by simp), sendMessage_count_disc]

/-- C1: for every `auth_ok` frame whose payload decodes, delivered to a
signaling client with a live connection and a registered, non-panicking
handler, `handleMessage` marks the client authenticated and its whole
effect trace is exactly the `OnAuthenticated` callback immediately
followed by one `app_register` frame carrying exactly the configured
app name and capability set — no operator action in between. -/
theorem c1_auth_ok_sends_one_register (c : SignalingClient) (conn0 : Conn)
    (p : AuthOKPayload) (raw : RawPayload) (rid : String)
    (hconn : c.conn = some conn0)
    (hH : c.config.hasHandler = true)
    (hnp : c.config.panicsOn (Event.onAuthenticated p) = false)
    (hraw : raw.asAuthOK = some p) :
    (SignalingClient.handleMessage c
        (Inbound.envelope { type_ := MsgTypeAuthOK, payload := raw, requestId := rid })).st.isAuthenticated
      = true
    ∧ (SignalingClient.handleMessage c
        (Inbound.envelope { type_ := MsgTypeAuthOK, payload := raw, requestId := rid })).out
      = [Out.ev (Event.onAuthenticated p),
         Out.tx (Sent.appRegister c.config.appName c.config.capabilities)]
    ∧ (SignalingClient.handleMessage c
        (Inbound.envelope { type_ := MsgTypeAuthOK, payload := raw, requestId := rid })).panicked
      = false := by
  simp [SignalingClient.handleMessage, SignalingClient.dispatch,
    SignalingClient.RegisterApp, SignalingClient.sendMessage, hraw, hH, hnp, hconn]

/-- Raw payload with every decode failing except `auth_ok`. -/
def rawAuthOK : RawPayload :=
  { asAuthOK := some { userId := "u1", accountType := "standard" },
    asAuthError := none, asAppRegistered := none, asOffer := none,
    asAnswer := none, asICE := none, asError := none }

theorem c1_auth_ok_sends_one_register_witness :
    (SignalingClient.handleMessage witnessConnected
        (Inbound.envelope { type_ := MsgTypeAuthOK, payload := rawAuthOK, requestId := "r1" })).out
      = [Out.ev (Event.onAuthenticated { userId := "u1", accountType := "standard" }),
         Out.tx (Sent.appRegister witnessConnected.config.appName
            witnessConnected.config.capabilities)] :=
  (c1_auth_ok_sends_one_register witnessConnected { writeOk := true, closeErr := false }
    { userId := "u1", accountType := "standard" } rawAuthOK "r1" rfl rfl rfl rfl).2.1

/-- C6: an inbound frame whose bytes fail to parse as a JSON envelope
makes `handleMessage` fire `OnError` and return with the state
unchanged and no panic; within the read loop, such a frame contributes
exactly that `OnError` invocation and the loop goes on to process the
remaining reads unchanged. -/
theorem c6_malformed_frame_nonfatal (c : SignalingClient) (conn0 : Conn)
    (rest : List ReadResult)
    (hc : c.ctxCancelled = false) (hconn : c.conn = some conn0)
    (hH : c.config.hasHandler = true)
    (hnp : c.config.panicsOn (Event.onError SignalingClient.invalidFormatMsg) = false) :
    (SignalingClient.handleMessage c Inbound.badEnvelope).st = c
    ∧ (SignalingClient.handleMessage c Inbound.badEnvelope).out
        = [Out.ev (Event.onError SignalingClient.invalidFormatMsg)]
    ∧ (SignalingClient.handleMessage c Inbound.badEnvelope).panicked = false
    ∧ SignalingClient.readPump c (ReadResult.frame Inbound.badEnvelope :: rest)
        = { st := (SignalingClient.readPump c rest).st,
            out := Out.ev (Event.onError SignalingClient.invalidFormatMsg)
              :: (SignalingClient.readPump c rest).out,
            outcome := (SignalingClient.readPump c rest).outcome } := by
  have h1 : SignalingClient.handleMessage c Inbound.badEnvelope
      = { st := c, out := [Out.ev (Event.onError SignalingClient.invalidFormatMsg)],
          panicked := false } := by
    simp [SignalingClient.handleMessage, SignalingClient.dispatch, hH, hnp]
  refine ⟨by rw [h1], by rw [h1], by rw [h1], ?_⟩
  simp [SignalingClient.readPump, h1, hc, hconn]

theorem c6_malformed_frame_nonfatal_witness :
    (SignalingClient.handleMessage witnessConnected Inbound.badEnvelope).st = witnessConnected
    ∧ SignalingClient.readPump witnessConnected [ReadResult.frame Inbound.badEnvelope]
        = { st := (SignalingClient.readPump witnessConnected []).st,
            out := Out.ev (Event.onError SignalingClient.invalidFormatMsg)
              :: (SignalingClient.readPump witnessConnected []).out,
            outcome := (SignalingClient.readPump witnessConnected []).outcome } :=
  ⟨(c6_malformed_frame_nonfatal witnessConnected { writeOk := true, closeErr := false }
      [] rfl rfl rfl rfl).1,
   (c6_malformed_frame_nonfatal witnessConnected { writeOk := true, closeErr := false }
      [] rfl rfl rfl rfl).2.2.2⟩

lemma readPump_readErr_eq (c : SignalingClient) (conn0 : Conn) (unexpected : Bool)
    (rest : List ReadResult) (hc : c.ctxCancelled = false) (hconn : c.conn = some conn0) :
    SignalingClient.readPump c (ReadResult.readErr unexpected :: rest)
      = SignalingClient.pumpFinish c
          (if unexpected then
            SignalingClient.dispatch c.config (Event.onError "websocket error")
            else ([], false)).1
          (if unexpected then
            SignalingClient.dispatch c.config (Event.onError "websocket error")
            else ([], false)).2 := by
  cases unexpected <;> simp [SignalingClient.readPump, hc, hconn]

lemma readPump_frame_eq (c : SignalingClient) (conn0 : Conn) (f : Inbound)
    (rest : List ReadResult) (hc : c.ctxCancelled = false) (hconn : c.conn = some conn0)
    (hpanic : (SignalingClient.handleMessage c f).panicked = false) :
    SignalingClient.readPump c (ReadResult.frame f :: rest)
      = { st := (SignalingClient.readPump (SignalingClient.handleMessage c f).st rest).st,
          out := (SignalingClient.handleMessage c f).out
            ++ (SignalingClient.readPump (SignalingClient.handleMessage c f).st rest).out,
          outcome :=
            (SignalingClient.readPump (SignalingClient.handleMessage c f).st rest).outcome } := by
  simp [SignalingClient.readPump, hc, hconn, hpanic]

lemma pumpFinish_facts (c : SignalingClient) (acc : List Out)
    (hnp : ∀ e, c.config.panicsOn e = false)
    (hH : c.config.hasHandler = true) :
    SignalingClient.pumpFinish c acc false
      = { st := { c with isConnected := false, isAuthenticated := false },
          out := acc ++ [Out.ev Event.onDisconnected],
          outcome := PumpOutcome.exited } := by
  unfold SignalingClient.pumpFinish
  simp [SignalingClient.dispatch, hH, hnp]

/-- C5: for every signaling client with a live connection, an
uncancelled context and a registered, non-panicking handler, and every
read sequence consisting of any frames followed by a read error: the
read loop terminates (it exits rather than keeps running), both the
`isConnected` and `isAuthenticated` flags end up false, and the
`OnDisconnected` callback fires exactly once over the whole read-loop
lifetime. -/
theorem c5_read_error_disconnects_once (c : SignalingClient) (frames : List Inbound)
    (unexpected : Bool) (rest : List ReadResult) (conn0 : Conn)
    (hnp : ∀ e, c.config.panicsOn e = false)
    (hH : c.config.hasHandler = true)
    (hc : c.ctxCancelled = false)
    (hconn : c.conn = some conn0) :
    (SignalingClient.readPump c
        (frames.map ReadResult.frame ++ ReadResult.readErr unexpected :: rest)).outcome
      = PumpOutcome.exited
    ∧ (SignalingClient.readPump c
        (frames.map ReadResult.frame ++ ReadResult.readErr unexpected :: rest)).st.isConnected
      = false
    ∧ (SignalingClient.readPump c
        (frames.map ReadResult.frame ++ ReadResult.readErr unexpected :: rest)).st.isAuthenticated
      = false
    ∧ (SignalingClient.readPump c
        (frames.map ReadResult.frame ++ ReadResult.readErr unexpected :: rest)).out.count
        (Out.ev Event.onDisconnected)
      = 1 := by
  induction frames generalizing c with
  | nil =>
      have hde : (if unexpected then
          SignalingClient.dispatch c.config (Event.onError "websocket error")
          else ([], false)).2 = false := by
        cases unexpected
        · simp
        · simpa using dispatch_snd_false c.config (Event.onError "websocket error") (hnp _)
      have hdc : (if unexpected then
          SignalingClient.dispatch c.config (Event.onError "websocket error")
          else ([], false)).1.count (Out.ev Event.onDisconnected) = 0 := by
        cases unexpected
        · simp
        · simpa using dispatch_count_disc c.config (Event.onError "websocket error") (by simp)
      rw [List.map_nil, List.nil_append,
        readPump_readErr_eq c conn0 unexpected rest hc hconn, hde,
        pumpFinish_facts c _ hnp hH]
      simp [List.count_append, hdc]
  | cons f fs ih =>
      have hf := handleMessage_facts c f hnp
      have hnp2 : ∀ e, (SignalingClient.handleMessage c f).st.config.panicsOn e = false := by
        rw [hf.2.2.1]; exact hnp
      have hH2 : (SignalingClient.handleMessage c f).st.config.hasHandler = true := by
        rw [hf.2.2.1]; exact hH
      have hc2 : (SignalingClient.handleMessage c f).st.ctxCancelled = false := by
        rw [hf.2.1]; exact hc
      have hconn2 : (SignalingClient.handleMessage c f).st.conn = some conn0 := by
        rw [hf.1]; exact hconn
      have hrec := ih (SignalingClient.handleMessage c f).st hnp2 hH2 hc2 hconn2
      rw [List.map_cons, List.cons_append,
        readPump_frame_eq c conn0 f _ hc hconn hf.2.2.2.1]
      exact ⟨hrec.1, hrec.2.1, hrec.2.2.1,
        by simp [List.count_append, hf.2.2.2.2, hrec.2.2.2]⟩

theorem c5_read_error_disconnects_once_witness :
    (SignalingClient.readPump witnessConnected [ReadResult.readErr true]).outcome
      = PumpOutcome.exited
    ∧ (SignalingClient.readPump witnessConnected
        [ReadResult.readErr true]).st.isConnected = false
    ∧ (SignalingClient.readPump witnessConnected
        [ReadResult.readErr true]).st.isAuthenticated = false
    ∧ (SignalingClient.readPump witnessConnected
        [ReadResult.readErr true]).out.count (Out.ev Event.onDisconnected) = 1 :=
  c5_read_error_disconnects_once witnessConnected [] true []
    { writeOk := true, closeErr := false } (fun _ => rfl) rfl rfl rfl

theorem c10_connect_absorbed_witness :
    witnessConnected.isConnected = true
    ∧ SignalingClient.Connect witnessConnected
        { urlParseOk := true, dialOk := true, newConn := { writeOk := true, closeErr := false } }
      = { st := witnessConnected, out := [], err := none } :=
  ⟨rfl, c10_connect_absorbed witnessConnected _ rfl⟩

/-! ## Claim theorems: Connect error behavior (C7) -/

/-- A freshly constructed, never-connected signaling client. -/
def witnessFresh : SignalingClient :=
  { config := witnessConfig, conn := none, isConnected := false, isAuthenticated := false,
    appID := "", hasCtx := false, ctxCancelled := false }

/-- Environment where URL parse and dial succeed but socket writes on
the dialed connection fail. -/
def envAuthWriteFails : SignalingClient.ConnectEnv :=
  { urlParseOk := true, dialOk := true, newConn := { writeOk := false, closeErr := false } }

/-- C7 counterexample: with the URL parsing and the websocket dial both
succeeding but the write of the auth envelope failing, `Connect`
returns an error — so "error exactly when the URL fails to parse or the
dial fails" is false: there is a third error source. -/
theorem c7_counterexample :
    (SignalingClient.Connect witnessFresh envAuthWriteFails).err
      = some SignalingClient.ConnErr.authFailed
    ∧ envAuthWriteFails.urlParseOk = true
    ∧ envAuthWriteFails.dialOk = true
    ∧ ¬ (SignalingClient.Connect witnessFresh envAuthWriteFails).err = none := by
  decide

lemma dispatch_fst (cfg : SignalingConfig) (e : Event) :
    (SignalingClient.dispatch cfg e).1 = if cfg.hasHandler then [Out.ev e] else [] := by
  unfold SignalingClient.dispatch
  split <;> rfl

lemma dispatch_snd (cfg : SignalingConfig) (e : Event) :
    (SignalingClient.dispatch cfg e).2 = if cfg.hasHandler then cfg.panicsOn e else false := by
  unfold SignalingClient.dispatch
  split <;> rfl

/-- C7 (amended): on a not-yet-connected client whose handler does not
panic on `OnConnected`, `Connect` returns success exactly when the URL
parses, the dial succeeds and the auth envelope write succeeds; on
success the connection is live, the auth frame was written and the
client has not waited for `auth_ok` (`isAuthenticated` is unchanged);
in every error case — bad URL, failed dial, or failed auth write (after
which `Close` runs) — no connection remains registered as live. -/
theorem c7_connect_error_conditions (c : SignalingClient)
    (env : SignalingClient.ConnectEnv)
    (h0 : c.isConnected = false)
    (hnp : c.config.panicsOn Event.onConnected = false) :
    ((SignalingClient.Connect c env).err = none
        ↔ (env.urlParseOk = true ∧ env.dialOk = true ∧ env.newConn.writeOk = true))
    ∧ ((SignalingClient.Connect c env).err = none →
        (SignalingClient.Connect c env).st.isConnected = true
        ∧ (SignalingClient.Connect c env).st.isAuthenticated = c.isAuthenticated
        ∧ (SignalingClient.Connect c env).out
          = (if c.config.hasHandler then [Out.ev Event.onConnected] else [])
            ++ [Out.tx (Sent.auth c.config.apiKey)])
    ∧ ((SignalingClient.Connect c env).err ≠ none →
        (SignalingClient.Connect c env).st.isConnected = false) := by
  cases hu : env.urlParseOk <;> cases hd : env.dialOk <;> cases hw : env.newConn.writeOk <;>
    simp [SignalingClient.Connect, SignalingClient.sendAuth, SignalingClient.sendMessage,
      SignalingClient.Close, dispatch_fst, dispatch_snd, h0, hnp, hu, hd, hw]

/-- Environment where every step of a connect attempt succeeds. -/
def envAllOk : SignalingClient.ConnectEnv :=
  { urlParseOk := true, dialOk := true, newConn := { writeOk := true, closeErr := false } }

theorem c7_connect_error_conditions_witness :
    (SignalingClient.Connect witnessFresh envAllOk).err = none
    ∧ (SignalingClient.Connect witnessFresh envAllOk).st.isConnected = true :=
  ⟨((c7_connect_error_conditions witnessFresh envAllOk rfl rfl).1).mpr ⟨rfl, rfl, rfl⟩,
   ((c7_connect_error_conditions witnessFresh envAllOk rfl rfl).2.1
      (((c7_connect_error_conditions witnessFresh envAllOk rfl rfl).1).mpr
        ⟨rfl, rfl, rfl⟩)).1⟩

/-! ## Claim theorems: panic recovery (C9) -/

/-- A handler behavior that panics when the `OnOffer` callback runs. -/
def panicsOnOffer : Event → Bool
  | Event.onOffer _ _ => true
  | _ => false

/-- A handler behavior that panics when the `OnConnected` callback
runs. -/
def panicsOnConnectedOnly : Event → Bool
  | Event.onConnected => true
  | _ => false

def panickyConfig : SignalingConfig :=
  { serverURL := "wss://relay.example/ws/app", apiKey := "k1", appName := "etc-scraper",
    capabilities := ["scrape", "etc"], hasHandler := true, panicsOn := panicsOnOffer }

/-- An authenticated, registered signaling client whose handler panics
on `OnOffer`. -/
def panickyClient : SignalingClient :=
  { config := panickyConfig, conn := some { writeOk := true, closeErr := false },
    isConnected := true, isAuthenticated := true, appID := "app-42",
    hasCtx := true, ctxCancelled := false }

/-- Raw payload with every decode failing except `offer`. -/
def rawOffer : RawPayload :=
  { asAuthOK := none, asAuthError := none, asAppRegistered := none,
    asOffer := some { sdp := "v=0" }, asAnswer := none, asICE := none, asError := none }

/-- A well-formed `offer` frame. -/
def offerFrame : Inbound :=
  Inbound.envelope { type_ := MsgTypeOffer, payload := rawOffer, requestId := "r1" }

/-- C9 counterexample: a panic raised inside the `OnOffer` callback
dispatched synchronously from the read loop is not recovered at the
goroutine boundary — the read-pump goroutine has no `recover`, so the
process crashes instead of the panic being converted into a logged
error. -/
theorem c9_counterexample :
    (SignalingClient.readPump panickyClient [ReadResult.frame offerFrame]).outcome
      = PumpOutcome.crashed
    ∧ (SignalingClient.readPump panickyClient [ReadResult.frame offerFrame]).outcome
      ≠ PumpOutcome.exited := by
  decide

/-- C9 (amended): a panic raised inside a callback dispatched during
`Connect` (the `OnConnected` dispatch) is recovered by Connect's
deferred `recover` and converted into an error return; but a panic
raised inside a callback dispatched from the read loop is not recovered
in the read-pump goroutine and escapes it, crashing the process. -/
theorem c9_connect_recovers_readpump_does_not (c1 : SignalingClient)
    (env : SignalingClient.ConnectEnv) (c2 : SignalingClient) (d : Inbound) (conn0 : Conn)
    (h1 : c1.isConnected = false) (h2 : env.urlParseOk = true) (h3 : env.dialOk = true)
    (h4 : c1.config.hasHandler = true) (h5 : c1.config.panicsOn Event.onConnected = true)
    (h6 : c2.ctxCancelled = false) (h7 : c2.conn = some conn0)
    (h8 : (SignalingClient.handleMessage c2 d).panicked = true) :
    (SignalingClient.Connect c1 env).err = some SignalingClient.ConnErr.panicked
    ∧ (SignalingClient.readPump c2 [ReadResult.frame d]).outcome = PumpOutcome.crashed := by
  constructor
  · simp [SignalingClient.Connect, dispatch_snd, h1, h2, h3, h4, h5]
  · simp [SignalingClient.readPump, SignalingClient.pumpFinish, h6, h7, h8]

/-- Configuration whose handler panics on `OnConnected`. -/
def panickyConnectConfig : SignalingConfig :=
  { serverURL := "wss://relay.example/ws/app", apiKey := "k1", appName := "etc-scraper",
    capabilities := ["scrape", "etc"], hasHandler := true,
    panicsOn := panicsOnConnectedOnly }

/-- A never-connected signaling client whose handler panics on
`OnConnected`. -/
def panickyConnectClient : SignalingClient :=
  { config := panickyConnectConfig, conn := none, isConnected := false,
    isAuthenticated := false, appID := "", hasCtx := false, ctxCancelled := false }

theorem c9_connect_recovers_readpump_does_not_witness :
    (SignalingClient.Connect panickyConnectClient envAllOk).err
      = some SignalingClient.ConnErr.panicked
    ∧ (SignalingClient.readPump panickyClient [ReadResult.frame offerFrame]).outcome
      = PumpOutcome.crashed :=
  c9_connect_recovers_readpump_does_not panickyConnectClient envAllOk panickyClient
    offerFrame { writeOk := true, closeErr := false } rfl rfl rfl rfl rfl rfl rfl rfl

/-! ## Claim theorems: offer-time session reuse/replacement (C2) -/

def isCreatePOut : POut → Bool
  | POut.createPeer _ => true
  | _ => false

/-- A closed peer session with id 7. -/
def closedPeer : Peer :=
  { id := 7, connState := PCState.closed, handleOfferOk := false, closeErr := false }

/-- An orchestrator holding a closed peer session. -/
def clientWithClosedPeer : Client :=
  { hasHandler := true, peer := some closedPeer, signaling := none,
    connected := false, registered := true, hasCtx := true, ctxCancelled := false }

/-- Environment where `NewPeerConnection` fails. -/
def failingPeerEnv : PeerEnv :=
  { createOk := false,
    fresh := { id := 8, connState := PCState.new, handleOfferOk := true, closeErr := false } }

/-- C2 counterexample: an offer delivered while the current peer
session is `Closed` and while `NewPeerConnection` fails leads to
`HandleOffer` being invoked on the stale old session (id 7) with zero
new sessions created — refuting "exactly one new peer session is
created before HandleOffer is invoked on it". -/
theorem c2_counterexample :
    (signalingEventAdapter.OnOffer clientWithClosedPeer failingPeerEnv "v=0" "r9").2.countP
        isCreatePOut = 0
    ∧ POut.handleOffer 7 "v=0" "r9"
        ∈ (signalingEventAdapter.OnOffer clientWithClosedPeer failingPeerEnv "v=0" "r9").2
    ∧ clientWithClosedPeer.peer = some closedPeer
    ∧ closedPeer.connState = PCState.closed := by
  refine ⟨rfl, ?_, rfl, rfl⟩
  decide

/-- C2 (amended): provided the peer-connection constructor succeeds,
an offer delivered with no current session, or with a session in the
`Closed` or `Failed` state, closes the old session (when present) and
creates exactly one new session, on which `HandleOffer` is then
invoked; an offer delivered while the current session is `Connected`
reuses it — the full effect trace and the resulting session are stated
exactly. -/
theorem c2_offer_session_policy (c : Client) (env : PeerEnv) (sdp rid : String)
    (hok : env.createOk = true) :
    (c.peer = none →
      (signalingEventAdapter.OnOffer c env sdp rid).2
        = [POut.createPeer env.fresh.id, POut.handleOffer env.fresh.id sdp rid]
          ++ (if env.fresh.handleOfferOk then []
              else if c.hasHandler then [POut.p2pError "failed to handle offer"] else [])
      ∧ (signalingEventAdapter.OnOffer c env sdp rid).1.peer = some env.fresh)
    ∧ (∀ q, c.peer = some q →
        (q.connState = PCState.closed ∨ q.connState = PCState.failed) →
      (signalingEventAdapter.OnOffer c env sdp rid).2
        = [POut.closePeer q.id, POut.createPeer env.fresh.id,
           POut.handleOffer env.fresh.id sdp rid]
          ++ (if env.fresh.handleOfferOk then []
              else if c.hasHandler then [POut.p2pError "failed to handle offer"] else [])
      ∧ (signalingEventAdapter.OnOffer c env sdp rid).1.peer = some env.fresh)
    ∧ (∀ q, c.peer = some q → q.connState = PCState.connected →
      (signalingEventAdapter.OnOffer c env sdp rid).2
        = [POut.handleOffer q.id sdp rid]
          ++ (if q.handleOfferOk then []
              else if c.hasHandler then [POut.p2pError "failed to handle offer"] else [])
      ∧ (signalingEventAdapter.OnOffer c env sdp rid).1.peer = some q) := by
  refine ⟨?_, ?_, ?_⟩
  · intro hp
    simp [signalingEventAdapter.OnOffer, Client.createPeerConnection, hp, hok]
  · intro q hp hqs
    rcases hqs with hqs | hqs <;>
      simp [signalingEventAdapter.OnOffer, Client.createPeerConnection, hp, hqs, hok]
  · intro q hp hqs
    simp [signalingEventAdapter.OnOffer, Client.createPeerConnection, hp, hqs, hok]

/-- Environment where `NewPeerConnection` succeeds with a fresh
session of id 8. -/
def okPeerEnv : PeerEnv :=
  { createOk := true,
    fresh := { id := 8, connState := PCState.new, handleOfferOk := true, closeErr := false } }

theorem c2_offer_session_policy_witness :
    (signalingEventAdapter.OnOffer clientWithClosedPeer okPeerEnv "v=0" "r2").2
      = [POut.closePeer 7, POut.createPeer 8, POut.handleOffer 8 "v=0" "r2"]
    ∧ (signalingEventAdapter.OnOffer clientWithClosedPeer okPeerEnv "v=0" "r2").1.peer
      = some okPeerEnv.fresh :=
  (c2_offer_session_policy clientWithClosedPeer okPeerEnv "v=0" "r2" rfl).2.1
    closedPeer rfl (Or.inl rfl)

end ScrapeVM
